import Mathlib

/-!
Verification of the Mood-Music generation service (`src/app.py`).

The whole service is one Flask handler, `generate_music`, plus module-level
model initialisation.  We embed the handler as a pure function of

  * a `ModelEnv`: whether the model and processor loaded at startup, and
    oracles for the three external calls the handler makes
    (`processor(...)`, `model.generate(...)`, `torchaudio.save(...)`),
    each of which may raise (modelled as `Except String`);
  * a `GenRequest`: the parsed JSON body, where the `duration` field is
    recorded together with the outcome of Python's `int(...)` coercion;
  * the current wall-clock time `now : Timestamp` (second resolution),
    feeding `datetime.now().strftime("%Y%m%d_%H%M%S")`.

The result records the HTTP status code, the JSON body fields, and explicit
effect logs: which descriptions were passed to the processor, which
`max_length` budgets were passed to `model.generate`, which file paths were
passed to `torchaudio.save`, which files were successfully written, and
which directories `os.makedirs` created.
-/

namespace MoodMusic

/-- A wall-clock time at second resolution, as produced by `datetime.now()`.
Python's `datetime` guarantees `1 <= year <= 9999`, `1 <= month <= 12`,
`1 <= day <= 31`, `hour < 24`, `minute < 60`, `second < 60`. -/
structure Timestamp where
  year : Nat
  month : Nat
  day : Nat
  hour : Nat
  minute : Nat
  second : Nat
deriving DecidableEq, Repr

/-- The field bounds `datetime.now()` guarantees. -/
def Timestamp.valid (t : Timestamp) : Prop :=
  1 ≤ t.year ∧ t.year ≤ 9999 ∧ 1 ≤ t.month ∧ t.month ≤ 12 ∧
  1 ≤ t.day ∧ t.day ≤ 31 ∧ t.hour ≤ 23 ∧ t.minute ≤ 59 ∧ t.second ≤ 59

instance (t : Timestamp) : Decidable t.valid := by
  unfold Timestamp.valid
  infer_instance

/-- The low `w` decimal digits of `n`, most significant first: the
zero-padded fixed-width rendering `strftime` uses for each field. -/
def padDigits : Nat → Nat → List Nat
  | 0, _ => []
  | Nat.succ w, n => padDigits w (n / 10) ++ [n % 10]

/-- Digits of the `%Y%m%d` part of the timestamp format. -/
def dateDigits (t : Timestamp) : List Nat :=
  padDigits 4 t.year ++ padDigits 2 t.month ++ padDigits 2 t.day

/-- Digits of the `%H%M%S` part of the timestamp format. -/
def timeDigits (t : Timestamp) : List Nat :=
  padDigits 2 t.hour ++ padDigits 2 t.minute ++ padDigits 2 t.second

/-- `datetime.now().strftime("%Y%m%d_%H%M%S")` on app.py line 69. -/
def timestampStr (t : Timestamp) : String :=
  String.mk ((dateDigits t).map Nat.digitChar)
    ++ "_" ++ String.mk ((timeDigits t).map Nat.digitChar)

/-- `f"generated_music_{timestamp}.wav"` on app.py line 70. -/
def filenameFor (t : Timestamp) : String :=
  "generated_music_" ++ timestampStr t ++ ".wav"

theorem padDigits_length (w : Nat) : ∀ n, (padDigits w n).length = w := by
  induction w with
  | zero => intro n; rfl
  | succ w ih => intro n; simp [padDigits, ih]

theorem padDigits_lt_ten (w : Nat) : ∀ n, ∀ d ∈ padDigits w n, d < 10 := by
  induction w with
  | zero => intro n d hd; cases hd
  | succ w ih =>
    intro n d hd
    rcases List.mem_append.mp hd with h | h
    · exact ih _ d h
    · have : d = n % 10 := by simpa using h
      subst this
      exact Nat.mod_lt _ (by decide)

theorem padDigits_inj (w : Nat) :
    ∀ m n, m < 10 ^ w → n < 10 ^ w → padDigits w m = padDigits w n → m = n := by
  induction w with
  | zero =>
    intro m n hm hn _
    simp only [pow_zero, Nat.lt_one_iff] at hm hn
    omega
  | succ w ih =>
    intro m n hm hn h
    have hlen : (padDigits w (m / 10)).length = (padDigits w (n / 10)).length := by
      rw [padDigits_length, padDigits_length]
    obtain ⟨h1, h2⟩ := List.append_inj h hlen
    have hm10 : m / 10 < 10 ^ w := by
      rw [pow_succ] at hm
      omega
    have hn10 : n / 10 < 10 ^ w := by
      rw [pow_succ] at hn
      omega
    have hdiv : m / 10 = n / 10 := ih _ _ hm10 hn10 h1
    have hmod : m % 10 = n % 10 := by simpa using h2
    omega

theorem digitChar_inj_lt (a b : Nat) (ha : a < 10) (hb : b < 10)
    (h : Nat.digitChar a = Nat.digitChar b) : a = b := by
  interval_cases a <;> interval_cases b <;> revert h <;> decide

theorem map_digitChar_inj :
    ∀ (l1 l2 : List Nat), (∀ d ∈ l1, d < 10) → (∀ d ∈ l2, d < 10) →
      l1.map Nat.digitChar = l2.map Nat.digitChar → l1 = l2 := by
  intro l1
  induction l1 with
  | nil =>
    intro l2 _ _ h
    cases l2 with
    | nil => rfl
    | cons b bs => simp at h
  | cons a as ih =>
    intro l2 h1 h2 h
    cases l2 with
    | nil => simp at h
    | cons b bs =>
      simp only [List.map_cons, List.cons.injEq] at h
      have hab : a = b :=
        digitChar_inj_lt a b (h1 a (by simp)) (h2 b (by simp)) h.1
      have htail : as = bs :=
        ih bs (fun d hd => h1 d (by simp [hd])) (fun d hd => h2 d (by simp [hd])) h.2
      rw [hab, htail]

theorem string_append_data (a b : String) : (a ++ b).data = a.data ++ b.data := by
  cases a; cases b; rfl

theorem timestampStr_inj (t1 t2 : Timestamp) (h1 : t1.valid) (h2 : t2.valid)
    (h : timestampStr t1 = timestampStr t2) : t1 = t2 := by
  obtain ⟨hy1a, hy1, hmo1a, hmo1, hd1a, hd1, hh1, hmi1, hs1⟩ := h1
  obtain ⟨hy2a, hy2, hmo2a, hmo2, hd2a, hd2, hh2, hmi2, hs2⟩ := h2
  have hdata : ((dateDigits t1).map Nat.digitChar) ++ '_' :: ((timeDigits t1).map Nat.digitChar)
      = ((dateDigits t2).map Nat.digitChar) ++ '_' :: ((timeDigits t2).map Nat.digitChar) := by
    have := congrArg String.data h
    simpa [timestampStr, string_append_data] using this
  have hdlen : (dateDigits t1).length = 8 := by
    simp [dateDigits, padDigits_length]
  have hdlen2 : (dateDigits t2).length = 8 := by
    simp [dateDigits, padDigits_length]
  have hlen : ((dateDigits t1).map Nat.digitChar).length
      = ((dateDigits t2).map Nat.digitChar).length := by
    simp [hdlen, hdlen2]
  obtain ⟨hdateC, hrest⟩ := List.append_inj hdata hlen
  have htimeC : (timeDigits t1).map Nat.digitChar = (timeDigits t2).map Nat.digitChar :=
    List.cons.inj hrest |>.2
  have hdate : dateDigits t1 = dateDigits t2 := by
    refine map_digitChar_inj _ _ ?_ ?_ hdateC
    · intro d hd
      rcases List.mem_append.mp hd with hd' | hd'
      · rcases List.mem_append.mp hd' with hd'' | hd''
        · exact padDigits_lt_ten 4 _ d hd''
        · exact padDigits_lt_ten 2 _ d hd''
      · exact padDigits_lt_ten 2 _ d hd'
    · intro d hd
      rcases List.mem_append.mp hd with hd' | hd'
      · rcases List.mem_append.mp hd' with hd'' | hd''
        · exact padDigits_lt_ten 4 _ d hd''
        · exact padDigits_lt_ten 2 _ d hd''
      · exact padDigits_lt_ten 2 _ d hd'
  have htime : timeDigits t1 = timeDigits t2 := by
    refine map_digitChar_inj _ _ ?_ ?_ htimeC
    · intro d hd
      rcases List.mem_append.mp hd with hd' | hd'
      · rcases List.mem_append.mp hd' with hd'' | hd''
        · exact padDigits_lt_ten 2 _ d hd''
        · exact padDigits_lt_ten 2 _ d hd''
      · exact padDigits_lt_ten 2 _ d hd'
    · intro d hd
      rcases List.mem_append.mp hd with hd' | hd'
      · rcases List.mem_append.mp hd' with hd'' | hd''
        · exact padDigits_lt_ten 2 _ d hd''
        · exact padDigits_lt_ten 2 _ d hd''
      · exact padDigits_lt_ten 2 _ d hd'
  have hylen : (padDigits 4 t1.year).length = (padDigits 4 t2.year).length := by
    rw [padDigits_length, padDigits_length]
  unfold dateDigits at hdate
  rw [List.append_assoc, List.append_assoc] at hdate
  obtain ⟨hyearL, hmd⟩ := List.append_inj hdate hylen
  have hmlen : (padDigits 2 t1.month).length = (padDigits 2 t2.month).length := by
    rw [padDigits_length, padDigits_length]
  obtain ⟨hmonthL, hdayL⟩ := List.append_inj hmd hmlen
  unfold timeDigits at htime
  rw [List.append_assoc, List.append_assoc] at htime
  have hhlen : (padDigits 2 t1.hour).length = (padDigits 2 t2.hour).length := by
    rw [padDigits_length, padDigits_length]
  obtain ⟨hhourL, hms⟩ := List.append_inj htime hhlen
  have hmilen : (padDigits 2 t1.minute).length = (padDigits 2 t2.minute).length := by
    rw [padDigits_length, padDigits_length]
  obtain ⟨hminL, hsecL⟩ := List.append_inj hms hmilen
  have hyear : t1.year = t2.year :=
    padDigits_inj 4 _ _ (by norm_num; omega) (by norm_num; omega) hyearL
  have hmonth : t1.month = t2.month :=
    padDigits_inj 2 _ _ (by norm_num; omega) (by norm_num; omega) hmonthL
  have hday : t1.day = t2.day :=
    padDigits_inj 2 _ _ (by norm_num; omega) (by norm_num; omega) hdayL
  have hhour : t1.hour = t2.hour :=
    padDigits_inj 2 _ _ (by norm_num; omega) (by norm_num; omega) hhourL
  have hmin : t1.minute = t2.minute :=
    padDigits_inj 2 _ _ (by norm_num; omega) (by norm_num; omega) hminL
  have hsec : t1.second = t2.second :=
    padDigits_inj 2 _ _ (by norm_num; omega) (by norm_num; omega) hsecL
  cases t1; cases t2
  simp_all

theorem filenameFor_inj (t1 t2 : Timestamp) (h1 : t1.valid) (h2 : t2.valid)
    (h : filenameFor t1 = filenameFor t2) : t1 = t2 := by
  apply timestampStr_inj t1 t2 h1 h2
  have hdata := congrArg String.data h
  simp only [filenameFor, string_append_data] at hdata
  have hlen : (timestampStr t1).data.length = (timestampStr t2).data.length := by
    have l1 : (timestampStr t1).data.length = 15 := by
      simp [timestampStr, string_append_data, dateDigits, timeDigits, padDigits_length]
    have l2 : (timestampStr t2).data.length = 15 := by
      simp [timestampStr, string_append_data, dateDigits, timeDigits, padDigits_length]
    rw [l1, l2]
  rw [List.append_assoc, List.append_assoc] at hdata
  have hmid := List.append_cancel_left hdata
  have := List.append_inj hmid hlen
  have hts : (timestampStr t1).data = (timestampStr t2).data := this.1
  cases ht1 : timestampStr t1
  cases ht2 : timestampStr t2
  rw [ht1, ht2] at hts
  simp only at hts
  rw [hts]

/-- The parsed JSON body of a `POST /generate` request.  `description` is
the raw `description` field (absent = `none`); `duration` records the raw
`duration` field together with the outcome of Python's `int(...)` coercion
on it: `Except.ok n` when the value coerces to the integer `n`,
`Except.error msg` when `int(...)` raises with message `msg`. -/
structure GenRequest where
  description : Option String
  duration : Option (Except String Int)

/-- The module-level state of app.py and the external calls the handler
makes.  `modelLoaded` / `processorLoaded` say whether the startup
`try` block succeeded (`model`/`processor` are not `None`).  The three
oracles give the outcome of `processor(text=[description], ...)`,
`model.generate(**inputs, max_length, do_sample=True)`, and
`torchaudio.save(filepath, audio, sample_rate)`, each raising via
`Except.error` with the exception's message. -/
structure ModelEnv (I A : Type) where
  modelLoaded : Bool
  processorLoaded : Bool
  procResult : String → Except String I
  genResult : I → Int → Except String A
  saveResult : String → A → Except String Unit
  samplingRate : Nat

/-- The observable outcome of one `POST /generate` request: the HTTP status
code and JSON body fields returned by `generate_music`, plus effect logs:
descriptions passed to the processor, `max_length` budgets passed to
`model.generate`, file paths passed to `torchaudio.save`, files
successfully written, and directories created by `os.makedirs`. -/
structure HandlerResult where
  code : Nat
  status : String
  message : Option String
  file_path : Option String
  procCalls : List String
  genCalls : List Int
  saveCalls : List String
  savedFiles : List String
  madeDirs : List String
deriving DecidableEq, Repr

/-- app.py lines 36-93, the `/generate` handler.

Line-by-line correspondence:
* lines 37-41: if `model is None or processor is None`, return the fixed
  error body with HTTP 500 before touching the request;
* line 44: `description = request.json.get('description', '')`;
* line 45: `duration = int(request.json.get('duration', 10))` — a raised
  coercion error falls to the `except` block (lines 88-93);
* lines 51-55: `inputs = processor(text=[description], ...)`;
* lines 62-66: `audio_values = model.generate(**inputs,
  max_length=duration * 50, do_sample=True)`;
* lines 69-71: timestamp filename and `filepath =
  os.path.join('static', 'generated', filename)`;
* line 74: `os.makedirs(os.path.dirname(filepath), exist_ok=True)`;
* lines 78-80: `torchaudio.save(filepath, ..., sample_rate)`;
* lines 83-86: HTTP 200 success body with
  `file_path = f'/static/generated/{filename}'`;
* lines 88-93: any exception in the `try` block yields HTTP 500 with
  `message = str(e)`. -/
def generate_music {I A : Type} (env : ModelEnv I A) (req : GenRequest)
    (now : Timestamp) : HandlerResult :=
  if !env.modelLoaded || !env.processorLoaded then
    { code := 500, status := "error",
      message := some "Model not initialized properly", file_path := none,
      procCalls := [], genCalls := [], saveCalls := [], savedFiles := [],
      madeDirs := [] }
  else
    match req.duration.getD (Except.ok 10) with
    | Except.error msg =>
      { code := 500, status := "error", message := some msg,
        file_path := none, procCalls := [], genCalls := [], saveCalls := [],
        savedFiles := [], madeDirs := [] }
    | Except.ok duration =>
      match env.procResult (req.description.getD "") with
      | Except.error msg =>
        { code := 500, status := "error", message := some msg,
          file_path := none, procCalls := [req.description.getD ""],
          genCalls := [], saveCalls := [], savedFiles := [], madeDirs := [] }
      | Except.ok inputs =>
        match env.genResult inputs (duration * 50) with
        | Except.error msg =>
          { code := 500, status := "error", message := some msg,
            file_path := none, procCalls := [req.description.getD ""],
            genCalls := [duration * 50], saveCalls := [], savedFiles := [],
            madeDirs := [] }
        | Except.ok audioValues =>
          match env.saveResult ("static/generated/" ++ filenameFor now)
              audioValues with
          | Except.error msg =>
            { code := 500, status := "error", message := some msg,
              file_path := none, procCalls := [req.description.getD ""],
              genCalls := [duration * 50],
              saveCalls := ["static/generated/" ++ filenameFor now],
              savedFiles := [], madeDirs := ["static/generated"] }
          | Except.ok _ =>
            { code := 200, status := "success", message := none,
              file_path := some ("/static/generated/" ++ filenameFor now),
              procCalls := [req.description.getD ""],
              genCalls := [duration * 50],
              saveCalls := ["static/generated/" ++ filenameFor now],
              savedFiles := ["static/generated/" ++ filenameFor now],
              madeDirs := ["static/generated"] }

/-- A fully working environment: model and processor loaded, every external
call succeeds.  Used only to instantiate theorems at concrete inputs. -/
def happyEnv : ModelEnv Nat Nat :=
  { modelLoaded := true, processorLoaded := true,
    procResult := fun _ => Except.ok 0,
    genResult := fun _ _ => Except.ok 0,
    saveResult := fun _ _ => Except.ok (),
    samplingRate := 32000 }

/-- An environment where the startup model load failed (`model = None`). -/
def deadEnv : ModelEnv Nat Nat :=
  { happyEnv with modelLoaded := false }

/-- An environment where `model.generate` raises. -/
def genFailEnv : ModelEnv Nat Nat :=
  { happyEnv with genResult := fun _ _ => Except.error "CUDA out of memory" }

/-- A concrete valid timestamp. -/
def ts0 : Timestamp := ⟨2024, 5, 6, 7, 8, 9⟩

/-- A second concrete valid timestamp, differing from `ts0` in the second. -/
def ts1 : Timestamp := ⟨2024, 5, 6, 7, 8, 10⟩

/-- Shared helper: once the model is loaded and the duration coerced, the
processor is called exactly once on the (defaulted) description, and once
the processor succeeds, `model.generate` is called exactly once with
budget `d * 50`, whatever the generation and save outcomes. -/
theorem generate_music_calls {I A : Type} (env : ModelEnv I A)
    (req : GenRequest) (now : Timestamp) (d : Int) (inputs : I)
    (hm : env.modelLoaded = true) (hp : env.processorLoaded = true)
    (hd : req.duration.getD (Except.ok 10) = Except.ok d)
    (hproc : env.procResult (req.description.getD "") = Except.ok inputs) :
    (generate_music env req now).procCalls = [req.description.getD ""] ∧
    (generate_music env req now).genCalls = [d * 50] := by
  cases hgen : env.genResult inputs (d * 50) with
  | error msg =>
    constructor <;> simp [generate_music, hm, hp, hd, hproc, hgen]
  | ok audio =>
    cases hsave : env.saveResult ("static/generated/" ++ filenameFor now) audio with
    | error msg =>
      constructor <;> simp [generate_music, hm, hp, hd, hproc, hgen, hsave]
    | ok u =>
      constructor <;> simp [generate_music, hm, hp, hd, hproc, hgen, hsave]

/-- Claim C1: while the model or processor failed to initialize, every
`POST /generate` request gets HTTP 500 with status "error" and the fixed
message "Model not initialized properly", and the whole result is
independent of the request body and of the current time (the handler
returns before reading any input). -/
theorem c1_init_failure_fixed_error {I A : Type} (env : ModelEnv I A)
    (req : GenRequest) (now : Timestamp)
    (h : env.modelLoaded = false ∨ env.processorLoaded = false) :
    (generate_music env req now).code = 500 ∧
    (generate_music env req now).status = "error" ∧
    (generate_music env req now).message = some "Model not initialized properly" ∧
    ∀ (req2 : GenRequest) (now2 : Timestamp),
      generate_music env req now = generate_music env req2 now2 := by
  have hcond : (!env.modelLoaded || !env.processorLoaded) = true := by
    rcases h with h | h <;> simp [h]
  refine ⟨?_, ?_, ?_, ?_⟩ <;> simp [generate_music, hcond]

/-- Witness for C1 at a dead model environment and a concrete request. -/
theorem c1_init_failure_fixed_error_witness :
    (deadEnv.modelLoaded = false ∨ deadEnv.processorLoaded = false) ∧
    (generate_music deadEnv ⟨some "calm piano", some (Except.ok 5)⟩ ts0).code = 500 ∧
    (generate_music deadEnv ⟨some "calm piano", some (Except.ok 5)⟩ ts0).message
      = some "Model not initialized properly" ∧
    generate_music deadEnv ⟨some "calm piano", some (Except.ok 5)⟩ ts0
      = generate_music deadEnv ⟨none, none⟩ ts1 := by
  have h := c1_init_failure_fixed_error deadEnv
    ⟨some "calm piano", some (Except.ok 5)⟩ ts0 (Or.inl rfl)
  exact ⟨Or.inl rfl, h.1, h.2.2.1, h.2.2.2 ⟨none, none⟩ ts1⟩

/-- Claim C10: whatever the environment, request and time, the response
body's status is exactly "success" or "error", the HTTP code is 200 iff
the status is "success", and 500 iff the status is "error". -/
theorem c10_status_code_invariant {I A : Type} (env : ModelEnv I A)
    (req : GenRequest) (now : Timestamp) :
    ((generate_music env req now).status = "success" ∨
      (generate_music env req now).status = "error") ∧
    ((generate_music env req now).code = 200 ↔
      (generate_music env req now).status = "success") ∧
    ((generate_music env req now).code = 500 ↔
      (generate_music env req now).status = "error") := by
  unfold generate_music
  split
  · simp
  · split
    · simp
    · split
      · simp
      · split
        · simp
        · split <;> simp

/-- Claim C2: when `model.generate` raises, the response is HTTP 500 with
status "error" and the exception's message, and no audio file is written
(no `torchaudio.save` call is even attempted). -/
theorem c2_generation_exception_no_file {I A : Type} (env : ModelEnv I A)
    (req : GenRequest) (now : Timestamp) (d : Int) (inputs : I) (msg : String)
    (hm : env.modelLoaded = true) (hp : env.processorLoaded = true)
    (hd : req.duration.getD (Except.ok 10) = Except.ok d)
    (hproc : env.procResult (req.description.getD "") = Except.ok inputs)
    (hgen : env.genResult inputs (d * 50) = Except.error msg) :
    (generate_music env req now).code = 500 ∧
    (generate_music env req now).status = "error" ∧
    (generate_music env req now).message = some msg ∧
    (generate_music env req now).savedFiles = [] ∧
    (generate_music env req now).saveCalls = [] := by
  refine ⟨?_, ?_, ?_, ?_, ?_⟩ <;> simp [generate_music, hm, hp, hd, hproc, hgen]

/-- Witness for C2 at an environment whose `model.generate` raises. -/
theorem c2_generation_exception_no_file_witness :
    genFailEnv.genResult 0 (4 * 50) = Except.error "CUDA out of memory" ∧
    (generate_music genFailEnv ⟨some "calm piano", some (Except.ok 4)⟩ ts0).code = 500 ∧
    (generate_music genFailEnv ⟨some "calm piano", some (Except.ok 4)⟩ ts0).message
      = some "CUDA out of memory" ∧
    (generate_music genFailEnv ⟨some "calm piano", some (Except.ok 4)⟩ ts0).savedFiles
      = [] := by
  have h := c2_generation_exception_no_file genFailEnv
    ⟨some "calm piano", some (Except.ok 4)⟩ ts0 4 0 "CUDA out of memory"
    rfl rfl rfl rfl rfl
  exact ⟨rfl, h.1, h.2.2.1, h.2.2.2.1⟩

/-- Claim C3: the generation length budget passed to `model.generate` is
exactly `duration * 50`, and the budget requested for duration `2 * d` is
exactly twice the budget requested for duration `d`. -/
theorem c3_budget_is_duration_times_fifty {I A : Type} (env : ModelEnv I A)
    (desc : Option String) (now : Timestamp) (d : Int) (inputs : I)
    (hm : env.modelLoaded = true) (hp : env.processorLoaded = true)
    (hproc : env.procResult (desc.getD "") = Except.ok inputs) :
    (generate_music env ⟨desc, some (Except.ok d)⟩ now).genCalls = [d * 50] ∧
    (generate_music env ⟨desc, some (Except.ok (2 * d))⟩ now).genCalls
      = (generate_music env ⟨desc, some (Except.ok d)⟩ now).genCalls.map
          (fun b => 2 * b) := by
  have key : ∀ d' : Int,
      (generate_music env ⟨desc, some (Except.ok d')⟩ now).genCalls = [d' * 50] :=
    fun d' => (generate_music_calls env ⟨desc, some (Except.ok d')⟩ now d' inputs
      hm hp rfl hproc).2
  refine ⟨key d, ?_⟩
  rw [key (2 * d), key d]
  simp [mul_assoc]

/-- Witness for C3 at the all-success environment with duration 7. -/
theorem c3_budget_is_duration_times_fifty_witness :
    (generate_music happyEnv ⟨some "jazz", some (Except.ok 7)⟩ ts0).genCalls
      = [(7 : Int) * 50] ∧
    (generate_music happyEnv ⟨some "jazz", some (Except.ok (2 * 7))⟩ ts0).genCalls
      = (generate_music happyEnv ⟨some "jazz", some (Except.ok 7)⟩ ts0).genCalls.map
          (fun b => 2 * b) :=
  c3_budget_is_duration_times_fifty happyEnv (some "jazz") ts0 7 0 rfl rfl rfl

/-- Claim C4: the handler defaults an absent description to the empty
string, defaults an absent duration to 10, and passes any coerced integer
duration (zero, negative, or arbitrarily large) through to the model with
no bounds check: the requested budget is always `d * 50`. -/
theorem c4_defaults_and_no_bounds_check {I A : Type} (env : ModelEnv I A)
    (now : Timestamp) (inputs : I)
    (hm : env.modelLoaded = true) (hp : env.processorLoaded = true)
    (hproc : ∀ s, env.procResult s = Except.ok inputs) :
    (∀ d : Int,
      (generate_music env ⟨none, some (Except.ok d)⟩ now).procCalls = [""]) ∧
    (∀ desc : Option String,
      (generate_music env ⟨desc, none⟩ now).genCalls = [(10 : Int) * 50]) ∧
    (∀ (desc : Option String) (d : Int),
      (generate_music env ⟨desc, some (Except.ok d)⟩ now).genCalls = [d * 50]) := by
  refine ⟨?_, ?_, ?_⟩
  · intro d
    exact (generate_music_calls env ⟨none, some (Except.ok d)⟩ now d inputs
      hm hp rfl (hproc "")).1
  · intro desc
    exact (generate_music_calls env ⟨desc, none⟩ now 10 inputs
      hm hp rfl (hproc _)).2
  · intro desc d
    exact (generate_music_calls env ⟨desc, some (Except.ok d)⟩ now d inputs
      hm hp rfl (hproc _)).2

/-- Witness for C4: absent fields get their defaults, and durations 0, -5
and 10^9 are passed through unvalidated. -/
theorem c4_defaults_and_no_bounds_check_witness :
    (generate_music happyEnv ⟨none, some (Except.ok 3)⟩ ts0).procCalls = [""] ∧
    (generate_music happyEnv ⟨some "rock", none⟩ ts0).genCalls = [(10 : Int) * 50] ∧
    (generate_music happyEnv ⟨some "rock", some (Except.ok 0)⟩ ts0).genCalls
      = [(0 : Int) * 50] ∧
    (generate_music happyEnv ⟨some "rock", some (Except.ok (-5))⟩ ts0).genCalls
      = [(-5 : Int) * 50] ∧
    (generate_music happyEnv ⟨some "rock", some (Except.ok 1000000000)⟩ ts0).genCalls
      = [(1000000000 : Int) * 50] := by
  have h := c4_defaults_and_no_bounds_check happyEnv ts0 0 rfl rfl (fun s => rfl)
  exact ⟨h.1 3, h.2.1 (some "rock"), h.2.2 (some "rock") 0,
    h.2.2 (some "rock") (-5), h.2.2 (some "rock") 1000000000⟩

/-- Claim C5: once generation succeeds, the save is attempted at exactly
`static/generated/generated_music_<YYYYMMDD_HHMMSS>.wav`, the directory
`static/generated` has been created (whatever the save outcome, i.e.
before the write), and when the save succeeds that single file is the one
written. -/
theorem c5_filename_and_directory {I A : Type} (env : ModelEnv I A)
    (req : GenRequest) (now : Timestamp) (d : Int) (inputs : I) (audio : A)
    (hm : env.modelLoaded = true) (hp : env.processorLoaded = true)
    (hd : req.duration.getD (Except.ok 10) = Except.ok d)
    (hproc : env.procResult (req.description.getD "") = Except.ok inputs)
    (hgen : env.genResult inputs (d * 50) = Except.ok audio) :
    filenameFor now = "generated_music_" ++ timestampStr now ++ ".wav" ∧
    (generate_music env req now).saveCalls
      = ["static/generated/" ++ filenameFor now] ∧
    (generate_music env req now).madeDirs = ["static/generated"] ∧
    (env.saveResult ("static/generated/" ++ filenameFor now) audio
        = Except.ok () →
      (generate_music env req now).savedFiles
        = ["static/generated/" ++ filenameFor now]) := by
  cases hsave : env.saveResult ("static/generated/" ++ filenameFor now) audio with
  | error msg =>
    refine ⟨rfl, ?_, ?_, ?_⟩
    · simp [generate_music, hm, hp, hd, hproc, hgen, hsave]
    · simp [generate_music, hm, hp, hd, hproc, hgen, hsave]
    · intro hok
      exact Except.noConfusion hok
  | ok u =>
    cases u
    refine ⟨rfl, ?_, ?_, fun _ => ?_⟩ <;>
      simp [generate_music, hm, hp, hd, hproc, hgen, hsave]

/-- Witness for C5 at the all-success environment. -/
theorem c5_filename_and_directory_witness :
    (generate_music happyEnv ⟨some "lofi", some (Except.ok 6)⟩ ts0).saveCalls
      = ["static/generated/" ++ filenameFor ts0] ∧
    (generate_music happyEnv ⟨some "lofi", some (Except.ok 6)⟩ ts0).madeDirs
      = ["static/generated"] ∧
    (generate_music happyEnv ⟨some "lofi", some (Except.ok 6)⟩ ts0).savedFiles
      = ["static/generated/" ++ filenameFor ts0] := by
  have h := c5_filename_and_directory happyEnv ⟨some "lofi", some (Except.ok 6)⟩
    ts0 6 0 0 rfl rfl rfl rfl rfl
  exact ⟨h.2.1, h.2.2.1, h.2.2.2 rfl⟩

/-- Claim C6: two (field-wise valid) second-resolution timestamps yield the
same output filename exactly when they are the same second: different
seconds give distinct filenames, the same second gives a collision. -/
theorem c6_collision_iff_same_second (t1 t2 : Timestamp)
    (h1 : t1.valid) (h2 : t2.valid) :
    filenameFor t1 = filenameFor t2 ↔ t1 = t2 := by
  constructor
  · exact filenameFor_inj t1 t2 h1 h2
  · intro h
    rw [h]

/-- Witness for C6: two concrete timestamps one second apart give distinct
filenames. -/
theorem c6_collision_iff_same_second_witness :
    (ts0.valid ∧ ts1.valid ∧ ts0 ≠ ts1) ∧ filenameFor ts0 ≠ filenameFor ts1 := by
  have h := c6_collision_iff_same_second ts0 ts1 (by decide) (by decide)
  exact ⟨⟨by decide, by decide, by decide⟩,
    fun heq => absurd (h.mp heq) (by decide)⟩

/-- Claim C7: a request on which coercion, processing, generation and save
all succeed gets HTTP 200 with status "success" and a `file_path` of the
form `/static/generated/<name>` where `<name>` is exactly the filename the
waveform was saved under; exactly one file is written for the request. -/
theorem c7_success_payload {I A : Type} (env : ModelEnv I A)
    (req : GenRequest) (now : Timestamp) (d : Int) (inputs : I) (audio : A)
    (hm : env.modelLoaded = true) (hp : env.processorLoaded = true)
    (hd : req.duration.getD (Except.ok 10) = Except.ok d)
    (hproc : env.procResult (req.description.getD "") = Except.ok inputs)
    (hgen : env.genResult inputs (d * 50) = Except.ok audio)
    (hsave : env.saveResult ("static/generated/" ++ filenameFor now) audio
      = Except.ok ()) :
    (generate_music env req now).code = 200 ∧
    (generate_music env req now).status = "success" ∧
    (generate_music env req now).file_path
      = some ("/static/generated/" ++ filenameFor now) ∧
    (generate_music env req now).savedFiles
      = ["static/generated/" ++ filenameFor now] ∧
    (generate_music env req now).savedFiles.length = 1 := by
  refine ⟨?_, ?_, ?_, ?_, ?_⟩ <;>
    simp [generate_music, hm, hp, hd, hproc, hgen, hsave]

/-- Witness for C7 at the all-success environment. -/
theorem c7_success_payload_witness :
    (generate_music happyEnv ⟨some "ambient", some (Except.ok 8)⟩ ts0).code = 200 ∧
    (generate_music happyEnv ⟨some "ambient", some (Except.ok 8)⟩ ts0).status
      = "success" ∧
    (generate_music happyEnv ⟨some "ambient", some (Except.ok 8)⟩ ts0).file_path
      = some ("/static/generated/" ++ filenameFor ts0) ∧
    (generate_music happyEnv ⟨some "ambient", some (Except.ok 8)⟩ ts0).savedFiles.length
      = 1 := by
  have h := c7_success_payload happyEnv ⟨some "ambient", some (Except.ok 8)⟩
    ts0 8 0 0 rfl rfl rfl rfl rfl rfl
  exact ⟨h.1, h.2.1, h.2.2.1, h.2.2.2.2⟩

/-- Claim C8: an empty description is not rejected: it is forwarded as-is
(the processor is called with exactly the empty string), and the request's
observable response (code, status, message, file path) is computed exactly
as it would be for any other description on which the processor behaves
the same. -/
theorem c8_empty_description_accepted {I A : Type} (env : ModelEnv I A)
    (now : Timestamp) (dur : Option (Except String Int)) (d : Int)
    (hm : env.modelLoaded = true) (hp : env.processorLoaded = true)
    (hd : dur.getD (Except.ok 10) = Except.ok d) :
    (generate_music env ⟨some "", dur⟩ now).procCalls = [""] ∧
    ∀ s : String, env.procResult s = env.procResult "" →
      ((generate_music env ⟨some s, dur⟩ now).code
          = (generate_music env ⟨some "", dur⟩ now).code ∧
        (generate_music env ⟨some s, dur⟩ now).status
          = (generate_music env ⟨some "", dur⟩ now).status ∧
        (generate_music env ⟨some s, dur⟩ now).message
          = (generate_music env ⟨some "", dur⟩ now).message ∧
        (generate_music env ⟨some s, dur⟩ now).file_path
          = (generate_music env ⟨some "", dur⟩ now).file_path) := by
  constructor
  · cases hpr : env.procResult "" with
    | error msg => simp [generate_music, hm, hp, hd, hpr]
    | ok inputs =>
      exact (generate_music_calls env ⟨some "", dur⟩ now d inputs hm hp hd hpr).1
  · intro s hs
    cases hpr : env.procResult "" with
    | error msg =>
      refine ⟨?_, ?_, ?_, ?_⟩ <;> simp [generate_music, hm, hp, hd, hs, hpr]
    | ok inputs =>
      cases hgen : env.genResult inputs (d * 50) with
      | error msg =>
        refine ⟨?_, ?_, ?_, ?_⟩ <;>
          simp [generate_music, hm, hp, hd, hs, hpr, hgen]
      | ok audio =>
        cases hsave : env.saveResult ("static/generated/" ++ filenameFor now)
            audio with
        | error msg =>
          refine ⟨?_, ?_, ?_, ?_⟩ <;>
            simp [generate_music, hm, hp, hd, hs, hpr, hgen, hsave]
        | ok u =>
          refine ⟨?_, ?_, ?_, ?_⟩ <;>
            simp [generate_music, hm, hp, hd, hs, hpr, hgen, hsave]

/-- Witness for C8: at the all-success environment the empty description is
forwarded verbatim and the response matches that of a non-empty one. -/
theorem c8_empty_description_accepted_witness :
    (generate_music happyEnv ⟨some "", some (Except.ok 5)⟩ ts0).procCalls = [""] ∧
    (generate_music happyEnv ⟨some "upbeat funk", some (Except.ok 5)⟩ ts0).code
      = (generate_music happyEnv ⟨some "", some (Except.ok 5)⟩ ts0).code ∧
    (generate_music happyEnv ⟨some "upbeat funk", some (Except.ok 5)⟩ ts0).status
      = (generate_music happyEnv ⟨some "", some (Except.ok 5)⟩ ts0).status := by
  have h := c8_empty_description_accepted happyEnv ts0 (some (Except.ok 5)) 5
    rfl rfl rfl
  have h2 := h.2 "upbeat funk" rfl
  exact ⟨h.1, h2.1, h2.2.1⟩

/-- Claim C9: a duration value on which `int(...)` raises is caught by the
catch-all handler: the response is HTTP 500 (a server-error code, not a
4xx client-error code) with status "error" and the coercion exception's
message, and no file is written. -/
theorem c9_uncoercible_duration_500 {I A : Type} (env : ModelEnv I A)
    (req : GenRequest) (now : Timestamp) (msg : String)
    (hm : env.modelLoaded = true) (hp : env.processorLoaded = true)
    (hd : req.duration = some (Except.error msg)) :
    (generate_music env req now).code = 500 ∧
    (generate_music env req now).status = "error" ∧
    (generate_music env req now).message = some msg ∧
    (generate_music env req now).savedFiles = [] ∧
    ¬(400 ≤ (generate_music env req now).code ∧
      (generate_music env req now).code < 500) := by
  have hc : (generate_music env req now).code = 500 := by
    simp [generate_music, hm, hp, hd]
  refine ⟨hc, ?_, ?_, ?_, ?_⟩
  · simp [generate_music, hm, hp, hd]
  · simp [generate_music, hm, hp, hd]
  · simp [generate_music, hm, hp, hd]
  · rw [hc]
    decide

/-- Witness for C9 with the message Python's `int("abc")` produces. -/
theorem c9_uncoercible_duration_500_witness :
    (generate_music happyEnv
      ⟨some "piano", some (Except.error "invalid literal for int() with base 10: 'abc'")⟩
      ts0).code = 500 ∧
    (generate_music happyEnv
      ⟨some "piano", some (Except.error "invalid literal for int() with base 10: 'abc'")⟩
      ts0).message = some "invalid literal for int() with base 10: 'abc'" ∧
    (generate_music happyEnv
      ⟨some "piano", some (Except.error "invalid literal for int() with base 10: 'abc'")⟩
      ts0).savedFiles = [] := by
  have h := c9_uncoercible_duration_500 happyEnv
    ⟨some "piano", some (Except.error "invalid literal for int() with base 10: 'abc'")⟩
    ts0 "invalid literal for int() with base 10: 'abc'" rfl rfl rfl
  exact ⟨h.1, h.2.2.1, h.2.2.2.1⟩

end MoodMusic
